import Mathlib

/-!
Verification development for the flash-guardian repository (a photosensitive
content detector for video streams).

The detection pipeline is embedded shallowly:

* `FlashDetector` mirrors the mutable per-video state of the JS class
  `FlashDetector` in `src/scripts/detector.js`.
* `analyzeObs` embeds the body of `FlashDetector.analyzeFrame` from the point
  where a frame capture has succeeded, i.e. it consumes one analyzed
  observation `(currentTime, currentLuminance, currentRedSaturation)`.
  The frame-skipping (`frameCount % skipFrames`) and paused/ended checks that
  precede the capture only select which raw frames become analyzed
  observations and are outside the scope of the claims, which all speak about
  analyzed observations.
* Luminance and red-saturation values are embedded as exact rationals `ℚ`
  (the JS engine computes them as floats; the claims are about the ideal
  arithmetic).  Timestamps (`Date.now()` milliseconds) are `ℕ`; the JS
  comparison `currentTime - t <= DETECTION_WINDOW` agrees with truncated
  `Nat` subtraction because a negative JS difference and a truncated-to-zero
  difference are both `≤ DETECTION_WINDOW`.
* `updateStats` embeds the `updateStats` branch of the message listener in
  `src/scripts/background.js`; its promise queue processes requests strictly
  one at a time, so a batch of concurrent requests acts like a fold.
* `registerIfNew` embeds the visited-video dedup block of
  `initializeDetector`, `loadVisited` the startup load of `visitedVideos`
  from `chrome.storage.local` (both in `src/scripts/detector.js`).
* `calculateLuminance` / `calculateRedSaturation` embed the two analyzer
  methods; the RGBA byte array is represented as a list of `Pixel`s (the
  stride-16 byte loop samples every 4th pixel, and the alpha byte is never
  read).  The sRGB transfer function uses a real exponent `2.4`, hence the
  luminance side lives in `ℝ`; the red-saturation side is pixel counting and
  stays in `ℚ`.
-/

/-- `this.LUMINANCE_THRESHOLD = 0.2` in the `FlashDetector` constructor. -/
def LUMINANCE_THRESHOLD : ℚ := 0.2

/-- `this.RED_THRESHOLD = 0.6` in the `FlashDetector` constructor. -/
def RED_THRESHOLD : ℚ := 0.6

/-- `this.FLASH_FREQUENCY = 3` (flashes per second). -/
def FLASH_FREQUENCY : ℕ := 3

/-- `this.DETECTION_WINDOW = 1000` milliseconds. -/
def DETECTION_WINDOW : ℕ := 1000

/-- `this.MIN_BRIGHTNESS = 0.05`. -/
def MIN_BRIGHTNESS : ℚ := 0.05

/-- `this.WARMUP_FRAMES = 10`. -/
def WARMUP_FRAMES : ℕ := 10

/-- A statistics-update request, the `{action: 'updateStats', stat, count?}`
messages sent with `chrome.runtime.sendMessage`. -/
inductive StatMsg where
  | videoMonitored : StatMsg
  | warningIssued : StatMsg
  | flashDetected (count : ℕ) : StatMsg
deriving DecidableEq

/-- The cumulative stats record stored under the `stats` key. -/
structure Stats where
  videosMonitored : ℕ
  warningsIssued : ℕ
  flashesDetected : ℕ
deriving DecidableEq

/-- One pass of the serialized update queue in `background.js`: read the
stats record, apply the requested delta, store it back.  The JS increment for
`flashDetected` is `stats.flashesDetected += request.count || 1`, and
`0 || 1` evaluates to `1`, so a zero count is coerced to `1`. -/
def updateStats (st : Stats) (m : StatMsg) : Stats :=
  match m with
  | .videoMonitored => { st with videosMonitored := st.videosMonitored + 1 }
  | .warningIssued => { st with warningsIssued := st.warningsIssued + 1 }
  | .flashDetected count =>
      { st with flashesDetected := st.flashesDetected + (if count = 0 then 1 else count) }

/-- The mutable state of one `FlashDetector` instance, plus `paused`, which
records the effect of `this.video.pause()` on the monitored video element. -/
structure FlashDetector where
  prevLuminance : Option ℚ
  prevRedSaturation : Option ℚ
  flashTimestamps : List ℕ
  redFlashTimestamps : List ℕ
  isAnalyzing : Bool
  warningShown : Bool
  frameCount : ℕ
  analyzedFrameCount : ℕ
  totalFlashes : ℕ
  maxFlashesPerSecond : ℕ
  paused : Bool
deriving DecidableEq

/-- The field values set by the `FlashDetector` constructor (`paused` is the
video element's state; a playing video is not paused). -/
def initialState : FlashDetector where
  prevLuminance := none
  prevRedSaturation := none
  flashTimestamps := []
  redFlashTimestamps := []
  isAnalyzing := false
  warningShown := false
  frameCount := 0
  analyzedFrameCount := 0
  totalFlashes := 0
  maxFlashesPerSecond := 0
  paused := false

/-- `FlashDetector.triggerWarning`: a no-op when `warningShown` is already
set; otherwise it sets `warningShown`, pauses the video and sends the
`warningIssued` and `flashDetected` (with `count = totalFlashes`) stat
updates, in that order.  Returns the new state and the sent messages. -/
def triggerWarning (s : FlashDetector) : FlashDetector × List StatMsg :=
  if s.warningShown then (s, [])
  else
    ({ s with warningShown := true, paused := true },
      [StatMsg.warningIssued, StatMsg.flashDetected s.totalFlashes])

/-- The dark-frame guard of `analyzeFrame`:
`currentLuminance < MIN_BRIGHTNESS || (prevLuminance !== null && prevLuminance < MIN_BRIGHTNESS)`. -/
def isDark (lum : ℚ) (prev : Option ℚ) : Bool :=
  decide (lum < MIN_BRIGHTNESS) ||
    (match prev with
     | some p => decide (p < MIN_BRIGHTNESS)
     | none => false)

/-- The body of `FlashDetector.analyzeFrame` for one analyzed observation,
from the successful frame capture onward: increment `analyzedFrameCount`,
seed `previous` during warm-up, skip dark frames, otherwise flag general and
red flashes, evict stale queue entries, update the peak, and check the
trigger thresholds.  Returns the new state together with the stat-update
messages sent by `triggerWarning`. -/
def analyzeObs (s : FlashDetector) (t : ℕ) (lum red : ℚ) : FlashDetector × List StatMsg :=
  let s := { s with analyzedFrameCount := s.analyzedFrameCount + 1 }
  if s.analyzedFrameCount ≤ WARMUP_FRAMES then
    ({ s with prevLuminance := some lum, prevRedSaturation := some red }, [])
  else if isDark lum s.prevLuminance then
    ({ s with prevLuminance := some lum, prevRedSaturation := some red }, [])
  else
    match s.prevLuminance with
    | none => ({ s with prevLuminance := some lum, prevRedSaturation := some red }, [])
    | some pL =>
      let pR := s.prevRedSaturation.getD 0
      let luminanceChange := |lum - pL|
      let relativeLuminanceChange := luminanceChange / max pL 0.01
      let bothFramesBright := decide (lum > MIN_BRIGHTNESS) && decide (pL > MIN_BRIGHTNESS)
      let absoluteChangeSignificant := decide (luminanceChange > 0.1)
      let s :=
        if decide (relativeLuminanceChange > LUMINANCE_THRESHOLD) && bothFramesBright &&
            absoluteChangeSignificant then
          { s with flashTimestamps := s.flashTimestamps ++ [t],
                   totalFlashes := s.totalFlashes + 1 }
        else s
      let redChange := |red - pR|
      let s :=
        if decide (redChange > RED_THRESHOLD) && bothFramesBright then
          { s with redFlashTimestamps := s.redFlashTimestamps ++ [t] }
        else s
      let s :=
        { s with
          flashTimestamps := s.flashTimestamps.filter (fun u => t - u ≤ DETECTION_WINDOW),
          redFlashTimestamps := s.redFlashTimestamps.filter (fun u => t - u ≤ DETECTION_WINDOW) }
      let s := { s with maxFlashesPerSecond := max s.maxFlashesPerSecond s.flashTimestamps.length }
      let res :=
        if s.flashTimestamps.length ≥ FLASH_FREQUENCY then triggerWarning s
        else if s.redFlashTimestamps.length ≥ FLASH_FREQUENCY then triggerWarning s
        else (s, [])
      ({ res.1 with prevLuminance := some lum, prevRedSaturation := some red }, res.2)

/-- Sequentially analyze a list of observations `(t, luminance, red)`,
collecting all stat-update messages in order.  Frame analysis for one
detector is strictly sequential in the source (each analysis schedules the
next one only after it finishes). -/
def runObs : FlashDetector → List (ℕ × ℚ × ℚ) → FlashDetector × List StatMsg
  | s, [] => (s, [])
  | s, (t, lum, red) :: rest =>
    let r := analyzeObs s t lum red
    let r2 := runObs r.1 rest
    (r2.1, r.2 ++ r2.2)

/-- Number of `warningIssued` messages in a message list. -/
def countWarn (msgs : List StatMsg) : ℕ :=
  msgs.countP (fun m => match m with | .warningIssued => true | _ => false)

/-- `FlashDetector.resetDetectionState`: clears the previous-observation
cache, both flash queues and the analyzed-frame counter. -/
def resetDetectionState (s : FlashDetector) : FlashDetector :=
  { s with prevLuminance := none, prevRedSaturation := none,
           flashTimestamps := [], redFlashTimestamps := [],
           analyzedFrameCount := 0 }

/-- `FlashDetector.start`: returns immediately when already analyzing,
otherwise arms analysis, clears the warning flag and the run-scoped counters
and resets the detection state. -/
def start (s : FlashDetector) : FlashDetector :=
  if s.isAnalyzing then s
  else
    resetDetectionState
      { s with isAnalyzing := true, warningShown := false,
               totalFlashes := 0, maxFlashesPerSecond := 0 }

/-- `FlashDetector.stop`. -/
def stop (s : FlashDetector) : FlashDetector :=
  { s with isAnalyzing := false }

/-- The `play` listener installed by `setupVideoEventListeners`: when
protection is enabled, reset the warning flag and run counters if the video
is within its first 3 seconds, then start the detector. -/
def onPlay (protectionEnabled : Bool) (currentTime : ℚ) (s : FlashDetector) : FlashDetector :=
  if protectionEnabled then
    let s :=
      if currentTime < 3 then
        { s with warningShown := false, totalFlashes := 0, maxFlashesPerSecond := 0 }
      else s
    start s
  else s

/-- The `pause` listener: stop the detector. -/
def onPause (s : FlashDetector) : FlashDetector :=
  stop s

/-- The `seeking` listener: always reset the detection state; when the new
playback position is before the 10-second mark, additionally clear the
warning flag and the run-scoped counters. -/
def onSeeking (currentTime : ℚ) (s : FlashDetector) : FlashDetector :=
  let s := resetDetectionState s
  if currentTime < 10 then
    { s with warningShown := false, totalFlashes := 0, maxFlashesPerSecond := 0 }
  else s

/-- Externally visible effects of the visited-video registration block:
a write of the visited set to `chrome.storage.local` or a
`chrome.runtime.sendMessage` stat update. -/
inductive ExtAction where
  | persistVisited (ids : List String) : ExtAction
  | sendStat (m : StatMsg) : ExtAction
deriving DecidableEq

/-- The messages among a list of actions, in order. -/
def statMessages (acts : List ExtAction) : List StatMsg :=
  acts.filterMap (fun a => match a with | .sendStat m => some m | _ => none)

/-- The visited-video dedup block of `initializeDetector`: when the id is
not yet in `visitedVideos`, it is added to the in-memory set immediately, the
updated set is persisted, and only from the persistence callback is the
`videoMonitored` stat update sent.  Returns the updated set, the emitted
actions in program order, and whether the video was new (in which case the
stat update is sent). -/
def registerIfNew (visited : List String) (videoId : String) :
    List String × List ExtAction × Bool :=
  if videoId ∈ visited then (visited, [], false)
  else
    let visited' := visited ++ [videoId]
    (visited',
      [ExtAction.persistVisited visited', ExtAction.sendStat StatMsg.videoMonitored],
      true)

/-- `Array.from(visitedVideos)`: the persisted form of the in-memory set.
The JS `Set` is modelled as its insertion-ordered, duplicate-free element
list, which is exactly what `Array.from` produces. -/
def storedForm (visited : List String) : List String :=
  visited

/-- The startup load in `detector.js`:
`data.visitedVideos.forEach(videoId => visitedVideos.add(videoId))` starting
from the empty in-memory set.  `Set.add` inserts only when absent. -/
def loadVisited (stored : List String) : List String :=
  stored.foldl (fun acc id => if id ∈ acc then acc else acc ++ [id]) []

/-- One RGBA pixel of a captured frame (channel values are bytes 0–255 in a
`Uint8ClampedArray`; the alpha channel is never read by the analyzer). -/
structure Pixel where
  r : ℕ
  g : ℕ
  b : ℕ
  a : ℕ
deriving DecidableEq

/-- The byte loop `for (let i = 0; i < data.length; i += 16)` reads bytes
`i`, `i+1`, `i+2` of an RGBA array, i.e. the RGB channels of every 4th
pixel: pixels 0, 4, 8, … -/
def sampleEvery4 : List Pixel → List Pixel
  | [] => []
  | [p] => [p]
  | [p, _] => [p]
  | [p, _, _] => [p]
  | p :: _ :: _ :: _ :: rest => p :: sampleEvery4 rest

/-- The sRGB channel linearization used by `calculateLuminance`:
`c <= 0.03928 ? c / 12.92 : ((c + 0.055) / 1.055) ** 2.4`. -/
noncomputable def srgbToLinear (c : ℝ) : ℝ :=
  if c ≤ 0.03928 then c / 12.92 else ((c + 0.055) / 1.055) ^ (2.4 : ℝ)

/-- WCAG relative luminance of one pixel, channels normalized by 255. -/
noncomputable def pixelLuminance (p : Pixel) : ℝ :=
  0.2126 * srgbToLinear ((p.r : ℝ) / 255) + 0.7152 * srgbToLinear ((p.g : ℝ) / 255) +
    0.0722 * srgbToLinear ((p.b : ℝ) / 255)

/-- `FlashDetector.calculateLuminance`: the summed luminance of the sampled
pixels divided by `pixelCount / 4`, where `pixelCount = data.length / 4` is
the total number of pixels of the frame. -/
noncomputable def calculateLuminance (pixels : List Pixel) : ℝ :=
  ((sampleEvery4 pixels).map pixelLuminance).sum / ((pixels.length : ℝ) / 4)

/-- The saturated-red classifier of `calculateRedSaturation`:
`r > 200 && g < 100 && b < 100`. -/
def isSaturatedRed (p : Pixel) : Bool :=
  decide (200 < p.r) && decide (p.g < 100) && decide (p.b < 100)

/-- `FlashDetector.calculateRedSaturation`: the number of sampled
saturated-red pixels divided by `pixelCount / 4`. -/
def calculateRedSaturation (pixels : List Pixel) : ℚ :=
  (((sampleEvery4 pixels).countP isSaturatedRed : ℕ) : ℚ) / ((pixels.length : ℚ) / 4)

/-! ### Helper lemmas -/

/-- During warm-up (`analyzedFrameCount <= WARMUP_FRAMES` after the
increment), an analyzed observation only bumps the counter and seeds the
previous-observation cache. -/
theorem analyzeObs_warmup (s : FlashDetector) (t : ℕ) (lum red : ℚ)
    (h : s.analyzedFrameCount + 1 ≤ WARMUP_FRAMES) :
    analyzeObs s t lum red =
      ({ s with analyzedFrameCount := s.analyzedFrameCount + 1,
                prevLuminance := some lum, prevRedSaturation := some red }, []) := by
  simp [analyzeObs, h]

/-- A run that stays inside the warm-up period changes no flash state and
emits no messages. -/
theorem runObs_warmup (obs : List (ℕ × ℚ × ℚ)) (s : FlashDetector)
    (h : s.analyzedFrameCount + obs.length ≤ WARMUP_FRAMES) :
    (runObs s obs).1.totalFlashes = s.totalFlashes ∧
    (runObs s obs).1.flashTimestamps = s.flashTimestamps ∧
    (runObs s obs).1.redFlashTimestamps = s.redFlashTimestamps ∧
    (runObs s obs).1.warningShown = s.warningShown ∧
    (runObs s obs).2 = [] := by
  induction obs generalizing s with
  | nil => simp [runObs]
  | cons o rest ih =>
    obtain ⟨t, lum, red⟩ := o
    have hstep : s.analyzedFrameCount + 1 ≤ WARMUP_FRAMES := by
      simp at h; omega
    have := ih { s with analyzedFrameCount := s.analyzedFrameCount + 1,
                        prevLuminance := some lum, prevRedSaturation := some red }
      (by simp at h ⊢; omega)
    simp [runObs, analyzeObs_warmup s t lum red hstep]
    exact this

/-! ### Claim C4: warm-up suppression -/

/-- Claim C4: for every monitoring run and every input sequence, the first
`WARMUP_FRAMES = 10` analyzed observations never produce a flash event,
regardless of the luminance or red-saturation deltas; they only seed the
previous-observation cache (and the counter).  Stated both for a single
warm-up observation (exact state change) and for any run of at most 10
observations of a freshly started detector (no flash events, no messages). -/
theorem warmupSuppression :
    (∀ (s : FlashDetector) (t : ℕ) (lum red : ℚ),
      s.analyzedFrameCount + 1 ≤ WARMUP_FRAMES →
      analyzeObs s t lum red =
        ({ s with analyzedFrameCount := s.analyzedFrameCount + 1,
                  prevLuminance := some lum, prevRedSaturation := some red }, [])) ∧
    (∀ (s : FlashDetector) (obs : List (ℕ × ℚ × ℚ)),
      s.isAnalyzing = false → obs.length ≤ WARMUP_FRAMES →
      (runObs (start s) obs).1.totalFlashes = 0 ∧
      (runObs (start s) obs).1.flashTimestamps = [] ∧
      (runObs (start s) obs).1.redFlashTimestamps = [] ∧
      (runObs (start s) obs).2 = []) := by
  constructor
  · exact analyzeObs_warmup
  · intro s obs hstop hlen
    have hstart : start s =
        resetDetectionState
          { s with isAnalyzing := true, warningShown := false,
                   totalFlashes := 0, maxFlashesPerSecond := 0 } := by
      simp [start, hstop]
    rw [hstart]
    have h := runObs_warmup obs
      (resetDetectionState
        { s with isAnalyzing := true, warningShown := false,
                 totalFlashes := 0, maxFlashesPerSecond := 0 })
      (by simp [resetDetectionState]; omega)
    simp [resetDetectionState] at h ⊢
    exact ⟨h.1, h.2.1, h.2.2.1, h.2.2.2.2⟩

/-- Witness for `warmupSuppression` at concrete inputs: a fresh detector,
one huge-delta observation during warm-up. -/
theorem warmupSuppressionWitness :
    (analyzeObs initialState 0 0.9 0.9 =
      ({ initialState with analyzedFrameCount := 1,
                           prevLuminance := some 0.9, prevRedSaturation := some 0.9 }, [])) ∧
    ((runObs (start initialState) [(0, 0.9, 0.9)]).1.totalFlashes = 0 ∧
      (runObs (start initialState) [(0, 0.9, 0.9)]).1.flashTimestamps = [] ∧
      (runObs (start initialState) [(0, 0.9, 0.9)]).1.redFlashTimestamps = [] ∧
      (runObs (start initialState) [(0, 0.9, 0.9)]).2 = []) :=
  ⟨warmupSuppression.1 initialState 0 0.9 0.9 (by decide),
   warmupSuppression.2 initialState [(0, 0.9, 0.9)] rfl (by decide)⟩

/-! ### Claim C5: seek reset policy -/

/-- Claim C5: on every `seeking` event the detector clears the flash queues
and the previous-observation cache; the warning flag and the run-scoped
counters (`totalFlashes`, `maxFlashesPerSecond`) are cleared exactly when
the new playback position is below 10 seconds, so seeking to 5 s re-arms
warning eligibility while seeking to 500 s leaves `warningShown` as it was. -/
theorem seekReset (s : FlashDetector) (currentTime : ℚ) :
    (onSeeking currentTime s).flashTimestamps = [] ∧
    (onSeeking currentTime s).redFlashTimestamps = [] ∧
    (onSeeking currentTime s).prevLuminance = none ∧
    (onSeeking currentTime s).prevRedSaturation = none ∧
    (onSeeking currentTime s).analyzedFrameCount = 0 ∧
    (onSeeking currentTime s).warningShown = (if currentTime < 10 then false else s.warningShown) ∧
    (onSeeking currentTime s).totalFlashes = (if currentTime < 10 then 0 else s.totalFlashes) ∧
    (onSeeking currentTime s).maxFlashesPerSecond =
      (if currentTime < 10 then 0 else s.maxFlashesPerSecond) ∧
    (onSeeking 5 s).warningShown = false ∧
    (onSeeking 500 s).warningShown = s.warningShown := by
  have h5 : ((5 : ℚ) < 10) := by norm_num
  have h500 : ¬ ((500 : ℚ) < 10) := by norm_num
  unfold onSeeking resetDetectionState
  simp only [if_pos h5, if_neg h500]
  split_ifs <;> simp

/-! ### Claim C7: serialized stats updates -/

/-- Claim C7: for every prior stats record and every number `n` of
`updateStats` requests for `flashDetected` with count 1 (the serialized
queue in `background.js` processes concurrent requests one at a time, so a
concurrent batch acts like a fold), the final counter is exactly the prior
value plus `n`: no update is lost to a read-modify-write race. -/
theorem statsSerialization (st : Stats) (n : ℕ) :
    ((List.replicate n (StatMsg.flashDetected 1)).foldl updateStats st).flashesDetected =
      st.flashesDetected + n := by
  induction n generalizing st with
  | zero => simp
  | succ k ih =>
    rw [List.replicate_succ, List.foldl_cons, ih]
    simp [updateStats]
    omega

/-! ### Claim C9: visited-set round trip -/

/-- Membership in the fold that re-inserts stored ids into an empty set. -/
theorem mem_foldl_insertNew (l acc : List String) (v : String) :
    v ∈ l.foldl (fun acc id => if id ∈ acc then acc else acc ++ [id]) acc ↔
      v ∈ acc ∨ v ∈ l := by
  induction l generalizing acc with
  | nil => simp
  | cons a rest ih =>
    rw [List.foldl_cons, ih]
    by_cases ha : a ∈ acc
    · simp [ha]
      constructor
      · tauto
      · rintro (h | h | h) <;> try tauto
        subst h; tauto
    · simp [ha, List.mem_append]
      tauto

/-- Claim C9: persisting the visited-video set (`Array.from` of the JS set)
and reloading it through the startup `forEach`-add loop reproduces exactly
the same membership: no video id is gained or lost in the round trip. -/
theorem visitedRoundTrip (visited : List String) (v : String) :
    v ∈ loadVisited (storedForm visited) ↔ v ∈ visited := by
  rw [storedForm, loadVisited, mem_foldl_insertNew]
  simp

/-! ### Claim C10: start after stop re-arms the run -/

/-- Claim C10: starting a stopped detector (which is what the `play`
listener does after any `pause`, at any playback position) unconditionally
clears `warningShown`, `totalFlashes` and `maxFlashesPerSecond`, arms
analysis and resets the detection state; in particular the `play` handler
after a `pause` produces exactly the freshly started state regardless of the
current playback position, independent of the 10-second seek-reset policy. -/
theorem startResetsRun (s : FlashDetector) (currentTime : ℚ) :
    (start (stop s)).isAnalyzing = true ∧
    (start (stop s)).warningShown = false ∧
    (start (stop s)).totalFlashes = 0 ∧
    (start (stop s)).maxFlashesPerSecond = 0 ∧
    (start (stop s)).prevLuminance = none ∧
    (start (stop s)).prevRedSaturation = none ∧
    (start (stop s)).flashTimestamps = [] ∧
    (start (stop s)).redFlashTimestamps = [] ∧
    (start (stop s)).analyzedFrameCount = 0 ∧
    onPlay true currentTime (onPause s) = start (stop s) := by
  unfold onPlay onPause start stop resetDetectionState
  split_ifs <;> simp_all

/-! ### Claim C8: monitored-video dedup -/

/-- Claim C8: registering a fresh video id marks it visited, persists the
updated set to storage strictly before the `videoMonitored` stat message is
sent (the emitted action list is exactly persist-then-send), and a second
registration of the same id in the same session does nothing; pushing the
emitted stat messages through the aggregator increments `videosMonitored`
exactly once. -/
theorem registerIfNewDedup (visited : List String) (v : String) (st : Stats)
    (hnew : v ∉ visited) :
    (registerIfNew visited v).2.2 = true ∧
    (registerIfNew visited v).1 = visited ++ [v] ∧
    (registerIfNew visited v).2.1 =
      [ExtAction.persistVisited (visited ++ [v]), ExtAction.sendStat StatMsg.videoMonitored] ∧
    (registerIfNew (registerIfNew visited v).1 v).2.2 = false ∧
    (registerIfNew (registerIfNew visited v).1 v).2.1 = [] ∧
    (registerIfNew (registerIfNew visited v).1 v).1 = visited ++ [v] ∧
    ((statMessages ((registerIfNew visited v).2.1 ++
        (registerIfNew (registerIfNew visited v).1 v).2.1)).foldl updateStats st).videosMonitored =
      st.videosMonitored + 1 := by
  have h1 : registerIfNew visited v =
      (visited ++ [v],
        [ExtAction.persistVisited (visited ++ [v]), ExtAction.sendStat StatMsg.videoMonitored],
        true) := by
    simp [registerIfNew, hnew]
  have h2 : registerIfNew (visited ++ [v]) v = (visited ++ [v], [], false) := by
    simp [registerIfNew]
  rw [h1]
  simp [h2, statMessages, updateStats]

/-- Witness for `registerIfNewDedup`: an empty session registry and a
concrete video id. -/
theorem registerIfNewDedupWitness :
    (registerIfNew [] "dQw4w9WgXcQ").2.2 = true ∧
    (registerIfNew [] "dQw4w9WgXcQ").1 = [] ++ ["dQw4w9WgXcQ"] ∧
    (registerIfNew [] "dQw4w9WgXcQ").2.1 =
      [ExtAction.persistVisited ([] ++ ["dQw4w9WgXcQ"]),
        ExtAction.sendStat StatMsg.videoMonitored] ∧
    (registerIfNew (registerIfNew [] "dQw4w9WgXcQ").1 "dQw4w9WgXcQ").2.2 = false ∧
    (registerIfNew (registerIfNew [] "dQw4w9WgXcQ").1 "dQw4w9WgXcQ").2.1 = [] ∧
    (registerIfNew (registerIfNew [] "dQw4w9WgXcQ").1 "dQw4w9WgXcQ").1 = [] ++ ["dQw4w9WgXcQ"] ∧
    ((statMessages ((registerIfNew [] "dQw4w9WgXcQ").2.1 ++
        (registerIfNew (registerIfNew [] "dQw4w9WgXcQ").1 "dQw4w9WgXcQ").2.1)).foldl
        updateStats ⟨0, 0, 0⟩).videosMonitored = (Stats.mk 0 0 0).videosMonitored + 1 :=
  registerIfNewDedup [] "dQw4w9WgXcQ" ⟨0, 0, 0⟩ (by simp)

/-! ### Shape of the main analysis branch -/

set_option maxHeartbeats 1600000

/-- Explicit form of `analyzeObs` when the observation reaches the
flash-evaluation stage: past warm-up, not dark, previous observation
present.  All later claims about flash flagging, queue eviction and the
warning trigger are read off this shape. -/
theorem analyzeObs_main (s : FlashDetector) (t : ℕ) (lum red pL : ℚ)
    (hwarm : WARMUP_FRAMES ≤ s.analyzedFrameCount)
    (hprev : s.prevLuminance = some pL)
    (hdark : isDark lum (some pL) = false) :
    analyzeObs s t lum red =
      (let genCond := decide (|lum - pL| / max pL 0.01 > LUMINANCE_THRESHOLD) &&
          (decide (lum > MIN_BRIGHTNESS) && decide (pL > MIN_BRIGHTNESS)) &&
          decide (|lum - pL| > 0.1)
       let redCond := decide (|red - s.prevRedSaturation.getD 0| > RED_THRESHOLD) &&
          (decide (lum > MIN_BRIGHTNESS) && decide (pL > MIN_BRIGHTNESS))
       let fq := (if genCond then s.flashTimestamps ++ [t] else s.flashTimestamps).filter
          (fun u => t - u ≤ DETECTION_WINDOW)
       let rq := (if redCond then s.redFlashTimestamps ++ [t] else s.redFlashTimestamps).filter
          (fun u => t - u ≤ DETECTION_WINDOW)
       let tf := if genCond then s.totalFlashes + 1 else s.totalFlashes
       let trig := decide (fq.length ≥ FLASH_FREQUENCY) || decide (rq.length ≥ FLASH_FREQUENCY)
       ({ s with
          analyzedFrameCount := s.analyzedFrameCount + 1,
          prevLuminance := some lum,
          prevRedSaturation := some red,
          flashTimestamps := fq,
          redFlashTimestamps := rq,
          totalFlashes := tf,
          maxFlashesPerSecond := max s.maxFlashesPerSecond fq.length,
          warningShown := s.warningShown || trig,
          paused := if trig && !s.warningShown then true else s.paused },
        if trig && !s.warningShown then [StatMsg.warningIssued, StatMsg.flashDetected tf]
        else [])) := by
  have hnw : ¬ (s.analyzedFrameCount + 1 ≤ WARMUP_FRAMES) := by
    unfold WARMUP_FRAMES at hwarm ⊢; omega
  unfold analyzeObs
  simp only [hprev]
  rw [if_neg hnw, if_neg (by simp [hdark])]
  simp only [triggerWarning, ge_iff_le]
  split_ifs <;> simp_all <;> omega

/-- Past warm-up, a dark observation (current or previous luminance below
the brightness floor) only reseeds the previous-observation cache. -/
theorem analyzeObs_dark (s : FlashDetector) (t : ℕ) (lum red : ℚ)
    (hwarm : WARMUP_FRAMES ≤ s.analyzedFrameCount)
    (hdark : isDark lum s.prevLuminance = true) :
    analyzeObs s t lum red =
      ({ s with analyzedFrameCount := s.analyzedFrameCount + 1,
                prevLuminance := some lum, prevRedSaturation := some red }, []) := by
  have hnw : ¬ (s.analyzedFrameCount + 1 ≤ WARMUP_FRAMES) := by
    unfold WARMUP_FRAMES at hwarm ⊢; omega
  unfold analyzeObs
  rw [if_neg hnw, if_pos hdark]

/-! ### Claim C3: general-flash criterion -/

/-- Claim C3: past warm-up, a pair of consecutive analyzed observations is
flagged as a general flash (the lifetime counter increments) if and only if
the relative luminance change `|cur - prev| / max prev 0.01` exceeds 0.2,
the absolute change exceeds 0.1, and both luminances are above the 0.05
brightness floor; the counter moves by at most one per observation, and a
previous luminance of 0.02 (below the floor) never yields a flash, whatever
the current luminance (e.g. 0.9). -/
theorem generalFlashCriterion (s : FlashDetector) (t : ℕ) (lum red pL : ℚ)
    (hwarm : WARMUP_FRAMES ≤ s.analyzedFrameCount)
    (hprev : s.prevLuminance = some pL) :
    ((analyzeObs s t lum red).1.totalFlashes = s.totalFlashes + 1 ↔
      (|lum - pL| / max pL 0.01 > LUMINANCE_THRESHOLD ∧ |lum - pL| > 0.1 ∧
        lum > MIN_BRIGHTNESS ∧ pL > MIN_BRIGHTNESS)) ∧
    ((analyzeObs s t lum red).1.totalFlashes = s.totalFlashes + 1 ∨
      (analyzeObs s t lum red).1.totalFlashes = s.totalFlashes) ∧
    (pL = 0.02 → (analyzeObs s t lum red).1.totalFlashes = s.totalFlashes) := by
  rcases Bool.eq_false_or_eq_true (isDark lum (some pL)) with hdark | hdark
  case _ => -- dark branch: no flash, and the floor condition fails as well
    have hd : isDark lum s.prevLuminance = true := by rw [hprev]; exact hdark
    rw [analyzeObs_dark s t lum red hwarm hd]
    have hlt : lum < MIN_BRIGHTNESS ∨ pL < MIN_BRIGHTNESS := by
      by_contra hc
      push_neg at hc
      simp [isDark, not_lt.mpr hc.1, not_lt.mpr hc.2] at hdark
    refine ⟨⟨fun h => absurd h (by simp), fun h => ?_⟩, Or.inr rfl, fun _ => rfl⟩
    exfalso
    rcases hlt with hl | hl
    · exact absurd h.2.2.1 hl.asymm
    · exact absurd h.2.2.2 hl.asymm
  case _ => -- main flash-evaluation branch
    rw [analyzeObs_main s t lum red pL hwarm hprev hdark]
    by_cases hgen : (decide (|lum - pL| / max pL 0.01 > LUMINANCE_THRESHOLD) &&
        (decide (lum > MIN_BRIGHTNESS) && decide (pL > MIN_BRIGHTNESS)) &&
        decide (|lum - pL| > 0.1)) = true
    · refine ⟨⟨fun _ => ?_, fun _ => by simp [hgen]⟩, Or.inl (by simp [hgen]), fun hpl => ?_⟩
      · simp only [Bool.and_eq_true, decide_eq_true_eq] at hgen
        exact ⟨hgen.1.1, hgen.2, hgen.1.2.1, hgen.1.2.2⟩
      · exfalso
        simp only [Bool.and_eq_true, decide_eq_true_eq] at hgen
        rw [hpl] at hgen
        norm_num [MIN_BRIGHTNESS] at hgen
    · refine ⟨⟨fun h => ?_, fun hr => ?_⟩, Or.inr (by simp [hgen]), fun _ => by simp [hgen]⟩
      · simp [hgen] at h
      · exfalso
        apply hgen
        simp only [Bool.and_eq_true, decide_eq_true_eq]
        exact ⟨⟨hr.1, hr.2.2.1, hr.2.2.2⟩, hr.2.1⟩

/-! ### Claim C2: window eviction -/

/-- Ten bright warm-up observations, one flash-producing observation at
t = 10 ms, then a dark observation at t = 2000 ms. -/
def obsStaleC2 : List (ℕ × ℚ × ℚ) :=
  [(0, 0.5, 0), (1, 0.5, 0), (2, 0.5, 0), (3, 0.5, 0), (4, 0.5, 0),
   (5, 0.5, 0), (6, 0.5, 0), (7, 0.5, 0), (8, 0.5, 0), (9, 0.5, 0),
   (10, 0.9, 0), (2000, 0.01, 0)]

/-- Counterexample to claim C2 as stated: a frame analysis that exits at
the dark-frame guard does not evict.  After the analysis at t = 2000 ms the
general queue still holds the event from t = 10 ms, which is older than
t - 1000 ms. -/
theorem darkFrameStaleEventCounterexample :
    (runObs (start initialState) obsStaleC2).1.flashTimestamps = [10] ∧
    DETECTION_WINDOW < 2000 - 10 := by
  constructor
  · norm_num [runObs, analyzeObs, isDark, triggerWarning, start, resetDetectionState,
      initialState, obsStaleC2, MIN_BRIGHTNESS, WARMUP_FRAMES, LUMINANCE_THRESHOLD,
      RED_THRESHOLD, FLASH_FREQUENCY, DETECTION_WINDOW, abs_of_nonneg, abs_of_nonpos]
  · norm_num [DETECTION_WINDOW]

/-- Ten warm-up observations, then the flash events of the claim's concrete
scenario: events at t = 0, 300, 600, 1200 ms. -/
def obsWindowC2 : List (ℕ × ℚ × ℚ) :=
  [(0, 0.5, 0), (0, 0.5, 0), (0, 0.5, 0), (0, 0.5, 0), (0, 0.5, 0),
   (0, 0.5, 0), (0, 0.5, 0), (0, 0.5, 0), (0, 0.5, 0), (0, 0.5, 0),
   (0, 0.9, 0), (300, 0.5, 0), (600, 0.9, 0), (1200, 0.5, 0)]

/-- Claim C2 (amended): after each frame analysis that reaches the
flash-evaluation stage (past warm-up, previous observation present, dark
guard passed), both queues contain exactly the in-window events: nothing
older than `t - DETECTION_WINDOW` survives, every in-window event survives,
and nothing beyond the old events plus possibly the current timestamp
appears.  Analyses that exit early at the warm-up or dark guard leave the
queues untouched instead.  In the claim's concrete scenario (events at
t = 0, 300, 600, 1200 ms), the count at t = 1200 covers exactly
[300, 600, 1200] and excludes the event at t = 0. -/
theorem windowEvictionAmended (s : FlashDetector) (t : ℕ) (lum red pL : ℚ)
    (hwarm : WARMUP_FRAMES ≤ s.analyzedFrameCount)
    (hprev : s.prevLuminance = some pL)
    (hdark : isDark lum s.prevLuminance = false) :
    (∀ u ∈ (analyzeObs s t lum red).1.flashTimestamps, t - u ≤ DETECTION_WINDOW) ∧
    (∀ u ∈ (analyzeObs s t lum red).1.redFlashTimestamps, t - u ≤ DETECTION_WINDOW) ∧
    (∀ u ∈ s.flashTimestamps, t - u ≤ DETECTION_WINDOW →
      u ∈ (analyzeObs s t lum red).1.flashTimestamps) ∧
    (∀ u ∈ s.redFlashTimestamps, t - u ≤ DETECTION_WINDOW →
      u ∈ (analyzeObs s t lum red).1.redFlashTimestamps) ∧
    (∀ u ∈ (analyzeObs s t lum red).1.flashTimestamps, u ∈ s.flashTimestamps ∨ u = t) ∧
    (∀ u ∈ (analyzeObs s t lum red).1.redFlashTimestamps, u ∈ s.redFlashTimestamps ∨ u = t) ∧
    (runObs (start initialState) obsWindowC2).1.flashTimestamps = [300, 600, 1200] := by
  have hd' : isDark lum (some pL) = false := by rw [hprev] at hdark; exact hdark
  simp only [analyzeObs_main s t lum red pL hwarm hprev hd']
  refine ⟨?_, ?_, ?_, ?_, ?_, ?_, ?_⟩
  · intro u hu
    rw [List.mem_filter] at hu
    simpa using hu.2
  · intro u hu
    rw [List.mem_filter] at hu
    simpa using hu.2
  · intro u hu hw
    rw [List.mem_filter]
    refine ⟨?_, by simpa using hw⟩
    split
    · exact List.mem_append_left _ hu
    · exact hu
  · intro u hu hw
    rw [List.mem_filter]
    refine ⟨?_, by simpa using hw⟩
    split
    · exact List.mem_append_left _ hu
    · exact hu
  · intro u hu
    rw [List.mem_filter] at hu
    have hb := hu.1
    split at hb
    · rcases List.mem_append.mp hb with h | h
      · exact Or.inl h
      · exact Or.inr (by simpa using h)
    · exact Or.inl hb
  · intro u hu
    rw [List.mem_filter] at hu
    have hb := hu.1
    split at hb
    · rcases List.mem_append.mp hb with h | h
      · exact Or.inl h
      · exact Or.inr (by simpa using h)
    · exact Or.inl hb
  · norm_num [runObs, analyzeObs, isDark, triggerWarning, start, resetDetectionState,
      initialState, obsWindowC2, MIN_BRIGHTNESS, WARMUP_FRAMES, LUMINANCE_THRESHOLD,
      RED_THRESHOLD, FLASH_FREQUENCY, DETECTION_WINDOW, abs_of_nonneg, abs_of_nonpos]

/-! ### Claim C1: warning trigger -/

/-- Past warm-up with no previous observation cached, a non-dark observation
also only reseeds the cache (nothing to compare against). -/
theorem analyzeObs_nonePrev (s : FlashDetector) (t : ℕ) (lum red : ℚ)
    (hwarm : WARMUP_FRAMES ≤ s.analyzedFrameCount)
    (hprev : s.prevLuminance = none)
    (hdark : isDark lum s.prevLuminance = false) :
    analyzeObs s t lum red =
      ({ s with analyzedFrameCount := s.analyzedFrameCount + 1,
                prevLuminance := some lum, prevRedSaturation := some red }, []) := by
  have hnw : ¬ (s.analyzedFrameCount + 1 ≤ WARMUP_FRAMES) := by
    unfold WARMUP_FRAMES at hwarm ⊢; omega
  unfold analyzeObs
  rw [if_neg hnw, if_neg (by simp [hdark])]
  simp only [hprev]

/-- One analysis step issues at most one warning, and only by flipping
`warningShown` from false to true: the warning count plus the remaining
"budget" never grows. -/
theorem analyzeObs_warnBound (s : FlashDetector) (t : ℕ) (lum red : ℚ) :
    countWarn (analyzeObs s t lum red).2 +
      (if (analyzeObs s t lum red).1.warningShown = true then 0 else 1) ≤
      (if s.warningShown = true then 0 else 1) := by
  by_cases h1 : s.analyzedFrameCount + 1 ≤ WARMUP_FRAMES
  · rw [analyzeObs_warmup s t lum red h1]
    simp [countWarn]
  · have hwarm : WARMUP_FRAMES ≤ s.analyzedFrameCount := by omega
    by_cases h2 : isDark lum s.prevLuminance = true
    · rw [analyzeObs_dark s t lum red hwarm h2]
      simp [countWarn]
    · have h2' : isDark lum s.prevLuminance = false := by
        simpa using h2
      rcases hpl : s.prevLuminance with _ | pL
      · rw [analyzeObs_nonePrev s t lum red hwarm hpl h2']
        simp [countWarn]
      · rw [analyzeObs_main s t lum red pL hwarm hpl (hpl ▸ h2')]
        by_cases hw : s.warningShown = true
        · simp [countWarn, hw]
        · simp only [Bool.not_eq_true] at hw
          simp only [hw]
          split_ifs <;> simp_all [countWarn]

/-- Along any run, the total number of `warningIssued` messages plus the
remaining warning budget never grows. -/
theorem runObs_warnBound (obs : List (ℕ × ℚ × ℚ)) (s : FlashDetector) :
    countWarn (runObs s obs).2 +
      (if (runObs s obs).1.warningShown = true then 0 else 1) ≤
      (if s.warningShown = true then 0 else 1) := by
  induction obs generalizing s with
  | nil => simp [runObs, countWarn]
  | cons o rest ih =>
    obtain ⟨t, lum, red⟩ := o
    have hstep := analyzeObs_warnBound s t lum red
    have htail := ih (analyzeObs s t lum red).1
    simp only [runObs, countWarn, List.countP_append] at *
    omega

/-- A run starting with `warningShown = false` issues at most one warning;
a run starting with `warningShown = true` issues none. -/
theorem runObs_atMostOneWarning (s : FlashDetector) (obs : List (ℕ × ℚ × ℚ)) :
    countWarn (runObs s obs).2 ≤ if s.warningShown = true then 0 else 1 := by
  have h := runObs_warnBound obs s
  omega

/-- Ten warm-up observations with constant luminance 0.5, then three
red-saturation swings of magnitude 0.7 (> RED_THRESHOLD) at t = 10, 11, 12
with the luminance held constant, so no general flash is ever flagged. -/
def obsRedOnlyC1 : List (ℕ × ℚ × ℚ) :=
  [(0, 0.5, 0), (1, 0.5, 0), (2, 0.5, 0), (3, 0.5, 0), (4, 0.5, 0),
   (5, 0.5, 0), (6, 0.5, 0), (7, 0.5, 0), (8, 0.5, 0), (9, 0.5, 0),
   (10, 0.5, 0.7), (11, 0.5, 0), (12, 0.5, 0.7)]

/-- Counterexample to claim C1 as stated: a red-only trigger fires with a
lifetime flash count of 0, yet the cumulative `flashesDetected` stat rises
by 1, not by 0, because the background handler computes
`request.count || 1`.  The warning fires (`warningShown` becomes true and
`warningsIssued` rises by 1), `totalFlashes` is 0 at trigger time, and the
final stats are {videosMonitored 0, warningsIssued 1, flashesDetected 1} —
not `prior + lifetime count = 0`. -/
theorem redTriggerZeroCountCounterexample :
    (runObs (start initialState) obsRedOnlyC1).1.warningShown = true ∧
    (runObs (start initialState) obsRedOnlyC1).1.totalFlashes = 0 ∧
    (runObs (start initialState) obsRedOnlyC1).2.foldl updateStats ⟨0, 0, 0⟩ =
      (⟨0, 1, 1⟩ : Stats) ∧
    ¬ (((runObs (start initialState) obsRedOnlyC1).2.foldl updateStats ⟨0, 0, 0⟩).flashesDetected =
        (Stats.mk 0 0 0).flashesDetected +
          (runObs (start initialState) obsRedOnlyC1).1.totalFlashes) := by
  have hrun : runObs (start initialState) obsRedOnlyC1 =
      ((runObs (start initialState) obsRedOnlyC1).1,
        [StatMsg.warningIssued, StatMsg.flashDetected 0]) ∧
      (runObs (start initialState) obsRedOnlyC1).1.warningShown = true ∧
      (runObs (start initialState) obsRedOnlyC1).1.totalFlashes = 0 := by
    constructor
    · refine Prod.ext rfl ?_
      norm_num [runObs, analyzeObs, isDark, triggerWarning, start, resetDetectionState,
        initialState, obsRedOnlyC1, MIN_BRIGHTNESS, WARMUP_FRAMES, LUMINANCE_THRESHOLD,
        RED_THRESHOLD, FLASH_FREQUENCY, DETECTION_WINDOW, abs_of_nonneg, abs_of_nonpos]
    constructor
    · norm_num [runObs, analyzeObs, isDark, triggerWarning, start, resetDetectionState,
        initialState, obsRedOnlyC1, MIN_BRIGHTNESS, WARMUP_FRAMES, LUMINANCE_THRESHOLD,
        RED_THRESHOLD, FLASH_FREQUENCY, DETECTION_WINDOW, abs_of_nonneg, abs_of_nonpos]
    · norm_num [runObs, analyzeObs, isDark, triggerWarning, start, resetDetectionState,
        initialState, obsRedOnlyC1, MIN_BRIGHTNESS, WARMUP_FRAMES, LUMINANCE_THRESHOLD,
        RED_THRESHOLD, FLASH_FREQUENCY, DETECTION_WINDOW, abs_of_nonneg, abs_of_nonpos]
  obtain ⟨hmsgs, hwarn, htf⟩ := hrun
  refine ⟨hwarn, htf, ?_, ?_⟩
  · rw [show (runObs (start initialState) obsRedOnlyC1).2 =
        [StatMsg.warningIssued, StatMsg.flashDetected 0] from congrArg Prod.snd hmsgs]
    simp [updateStats]
  · rw [show (runObs (start initialState) obsRedOnlyC1).2 =
        [StatMsg.warningIssued, StatMsg.flashDetected 0] from congrArg Prod.snd hmsgs, htf]
    simp [updateStats]

/-- Claim C1 (amended): whenever a frame analysis reaches the
flash-evaluation stage and ends with a queue at the frequency threshold
while `warningShown` is false, the detector pauses the video, sets
`warningShown`, and the emitted stat updates raise `warningsIssued` by
exactly 1 and `flashesDetected` by the lifetime flash count at trigger time
when that count is nonzero and by 1 when it is zero (the background handler
computes `request.count || 1`).  Because `warningShown` stays true until
explicitly reset, any run issues at most one warning (none when it starts
already warned). -/
theorem triggerEffectsAmended (s : FlashDetector) (t : ℕ) (lum red pL : ℚ) (st : Stats)
    (hwarm : WARMUP_FRAMES ≤ s.analyzedFrameCount)
    (hprev : s.prevLuminance = some pL)
    (hdark : isDark lum s.prevLuminance = false)
    (hns : s.warningShown = false)
    (hth : FLASH_FREQUENCY ≤ (analyzeObs s t lum red).1.flashTimestamps.length ∨
      FLASH_FREQUENCY ≤ (analyzeObs s t lum red).1.redFlashTimestamps.length) :
    (analyzeObs s t lum red).1.paused = true ∧
    (analyzeObs s t lum red).1.warningShown = true ∧
    ((analyzeObs s t lum red).2.foldl updateStats st).warningsIssued = st.warningsIssued + 1 ∧
    ((analyzeObs s t lum red).2.foldl updateStats st).flashesDetected =
      st.flashesDetected +
        (if (analyzeObs s t lum red).1.totalFlashes = 0 then 1
         else (analyzeObs s t lum red).1.totalFlashes) ∧
    (∀ (s2 : FlashDetector) (obs : List (ℕ × ℚ × ℚ)),
      countWarn (runObs s2 obs).2 ≤ if s2.warningShown = true then 0 else 1) := by
  have hd' : isDark lum (some pL) = false := by rw [hprev] at hdark; exact hdark
  simp only [analyzeObs_main s t lum red pL hwarm hprev hd'] at hth ⊢
  simp only [hns] at hth ⊢
  simp at hth
  refine ⟨?_, ?_, ?_, ?_, runObs_atMostOneWarning⟩ <;>
    rcases hth with h | h <;>
    simp [updateStats, h]

/-- A concrete reachable mid-run state: 12 observations analyzed, previous
observation (luminance 0.5, red 0) cached, two recent general flash events
queued, no warning shown yet. -/
def sPast : FlashDetector :=
  { initialState with
      isAnalyzing := true, analyzedFrameCount := 12,
      prevLuminance := some 0.5, prevRedSaturation := some 0,
      flashTimestamps := [1100, 1150] }

/-- Witness for `triggerEffectsAmended`: at `sPast`, the observation
(t = 1200 ms, luminance 0.9) flags a third flash and tips the queue over
the threshold. -/
theorem triggerEffectsAmendedWitness :
    (analyzeObs sPast 1200 0.9 0).1.paused = true ∧
    (analyzeObs sPast 1200 0.9 0).1.warningShown = true ∧
    ((analyzeObs sPast 1200 0.9 0).2.foldl updateStats ⟨0, 0, 0⟩).warningsIssued =
      (Stats.mk 0 0 0).warningsIssued + 1 ∧
    ((analyzeObs sPast 1200 0.9 0).2.foldl updateStats ⟨0, 0, 0⟩).flashesDetected =
      (Stats.mk 0 0 0).flashesDetected +
        (if (analyzeObs sPast 1200 0.9 0).1.totalFlashes = 0 then 1
         else (analyzeObs sPast 1200 0.9 0).1.totalFlashes) ∧
    (∀ (s2 : FlashDetector) (obs : List (ℕ × ℚ × ℚ)),
      countWarn (runObs s2 obs).2 ≤ if s2.warningShown = true then 0 else 1) :=
  triggerEffectsAmended sPast 1200 0.9 0 0.5 ⟨0, 0, 0⟩ (by decide) (by rfl)
    (by norm_num [isDark, sPast, initialState, MIN_BRIGHTNESS]) rfl
    (Or.inl (by norm_num [analyzeObs, isDark, triggerWarning, sPast, initialState,
      MIN_BRIGHTNESS, WARMUP_FRAMES, LUMINANCE_THRESHOLD, RED_THRESHOLD, FLASH_FREQUENCY,
      DETECTION_WINDOW, abs_of_nonneg, abs_of_nonpos]))

/-- Witness for `windowEvictionAmended` at the same concrete state and
observation. -/
theorem windowEvictionAmendedWitness :
    (∀ u ∈ (analyzeObs sPast 1200 0.9 0).1.flashTimestamps, 1200 - u ≤ DETECTION_WINDOW) ∧
    (∀ u ∈ (analyzeObs sPast 1200 0.9 0).1.redFlashTimestamps, 1200 - u ≤ DETECTION_WINDOW) ∧
    (∀ u ∈ sPast.flashTimestamps, 1200 - u ≤ DETECTION_WINDOW →
      u ∈ (analyzeObs sPast 1200 0.9 0).1.flashTimestamps) ∧
    (∀ u ∈ sPast.redFlashTimestamps, 1200 - u ≤ DETECTION_WINDOW →
      u ∈ (analyzeObs sPast 1200 0.9 0).1.redFlashTimestamps) ∧
    (∀ u ∈ (analyzeObs sPast 1200 0.9 0).1.flashTimestamps,
      u ∈ sPast.flashTimestamps ∨ u = 1200) ∧
    (∀ u ∈ (analyzeObs sPast 1200 0.9 0).1.redFlashTimestamps,
      u ∈ sPast.redFlashTimestamps ∨ u = 1200) ∧
    (runObs (start initialState) obsWindowC2).1.flashTimestamps = [300, 600, 1200] :=
  windowEvictionAmended sPast 1200 0.9 0 0.5 (by decide) (by rfl)
    (by norm_num [isDark, sPast, initialState, MIN_BRIGHTNESS])

/-- Witness for `generalFlashCriterion` at the same concrete state and
observation. -/
theorem generalFlashCriterionWitness :
    ((analyzeObs sPast 1200 0.9 0).1.totalFlashes = sPast.totalFlashes + 1 ↔
      (|(0.9 : ℚ) - 0.5| / max 0.5 0.01 > LUMINANCE_THRESHOLD ∧ |(0.9 : ℚ) - 0.5| > 0.1 ∧
        (0.9 : ℚ) > MIN_BRIGHTNESS ∧ (0.5 : ℚ) > MIN_BRIGHTNESS)) ∧
    ((analyzeObs sPast 1200 0.9 0).1.totalFlashes = sPast.totalFlashes + 1 ∨
      (analyzeObs sPast 1200 0.9 0).1.totalFlashes = sPast.totalFlashes) ∧
    ((0.5 : ℚ) = 0.02 → (analyzeObs sPast 1200 0.9 0).1.totalFlashes = sPast.totalFlashes) :=
  generalFlashCriterion sPast 1200 0.9 0 0.5 (by decide) (by rfl)

/-! ### Claim C6: analyzer output range -/

/-- The stride-16 byte loop visits `ceil(byteLength / 16)` pixels, i.e.
`(pixelCount + 3) / 4` in integer arithmetic. -/
theorem sampleEvery4_length (l : List Pixel) :
    (sampleEvery4 l).length = (l.length + 3) / 4 := by
  induction l using sampleEvery4.induct <;> simp [sampleEvery4] <;> omega

/-- Every sampled pixel is a pixel of the frame. -/
theorem sampleEvery4_subset (l : List Pixel) (p : Pixel) (hp : p ∈ sampleEvery4 l) :
    p ∈ l := by
  induction l using sampleEvery4.induct <;> simp_all [sampleEvery4] <;> tauto

/-- The sRGB linearization maps [0, 1] into [0, 1] (lower bound). -/
theorem srgbToLinear_nonneg (c : ℝ) (h0 : 0 ≤ c) : 0 ≤ srgbToLinear c := by
  unfold srgbToLinear
  split_ifs
  · positivity
  · positivity

/-- The sRGB linearization maps [0, 1] into [0, 1] (upper bound). -/
theorem srgbToLinear_le_one (c : ℝ) (h0 : 0 ≤ c) (h1 : c ≤ 1) : srgbToLinear c ≤ 1 := by
  unfold srgbToLinear
  split_ifs with h
  · rw [div_le_one (by norm_num)]
    linarith
  · have hb0 : (0 : ℝ) ≤ (c + 0.055) / 1.055 := by positivity
    have hb1 : (c + 0.055) / 1.055 ≤ 1 := by
      rw [div_le_one (by norm_num)]
      linarith
    exact Real.rpow_le_one hb0 hb1 (by norm_num)

/-- WCAG pixel luminance is nonnegative. -/
theorem pixelLuminance_nonneg (p : Pixel) : 0 ≤ pixelLuminance p := by
  have h1 := srgbToLinear_nonneg ((p.r : ℝ) / 255) (by positivity)
  have h2 := srgbToLinear_nonneg ((p.g : ℝ) / 255) (by positivity)
  have h3 := srgbToLinear_nonneg ((p.b : ℝ) / 255) (by positivity)
  unfold pixelLuminance
  linarith

/-- WCAG pixel luminance of byte-valued channels is at most
0.2126 + 0.7152 + 0.0722 = 1. -/
theorem pixelLuminance_le_one (p : Pixel) (hr : p.r ≤ 255) (hg : p.g ≤ 255)
    (hb : p.b ≤ 255) : pixelLuminance p ≤ 1 := by
  have hr1 : ((p.r : ℝ)) / 255 ≤ 1 := by
    rw [div_le_one (by norm_num)]
    exact_mod_cast hr
  have hg1 : ((p.g : ℝ)) / 255 ≤ 1 := by
    rw [div_le_one (by norm_num)]
    exact_mod_cast hg
  have hb1 : ((p.b : ℝ)) / 255 ≤ 1 := by
    rw [div_le_one (by norm_num)]
    exact_mod_cast hb
  have h1 := srgbToLinear_le_one ((p.r : ℝ) / 255) (by positivity) hr1
  have h2 := srgbToLinear_le_one ((p.g : ℝ) / 255) (by positivity) hg1
  have h3 := srgbToLinear_le_one ((p.b : ℝ) / 255) (by positivity) hb1
  have h1' := srgbToLinear_nonneg ((p.r : ℝ) / 255) (by positivity)
  have h2' := srgbToLinear_nonneg ((p.g : ℝ) / 255) (by positivity)
  have h3' := srgbToLinear_nonneg ((p.b : ℝ) / 255) (by positivity)
  unfold pixelLuminance
  linarith

/-- Claim C6 (amended): for frames whose pixel count is a positive multiple
of 4 — exactly then the divisor `pixelCount / 4` equals the number of
sampled pixels — the luminance and red-saturation results lie in [0, 1].
For other pixel counts the divisor undercounts the sample and the results
can exceed 1 (see the counterexample on a 1×1 frame). -/
theorem analyzerRangeAmended (pixels : List Pixel)
    (hne : pixels ≠ [])
    (hdvd : 4 ∣ pixels.length)
    (hbytes : ∀ p ∈ pixels, p.r ≤ 255 ∧ p.g ≤ 255 ∧ p.b ≤ 255) :
    0 ≤ calculateLuminance pixels ∧ calculateLuminance pixels ≤ 1 ∧
    0 ≤ calculateRedSaturation pixels ∧ calculateRedSaturation pixels ≤ 1 := by
  have hpos : 0 < pixels.length := List.length_pos.mpr hne
  have hlen : (sampleEvery4 pixels).length = pixels.length / 4 := by
    rw [sampleEvery4_length]
    omega
  have hcast : ((pixels.length / 4 : ℕ) : ℝ) = (pixels.length : ℝ) / 4 := by
    rw [Nat.cast_div hdvd (by norm_num)]
    norm_num
  have hcastQ : ((pixels.length / 4 : ℕ) : ℚ) = (pixels.length : ℚ) / 4 := by
    rw [Nat.cast_div hdvd (by norm_num)]
    norm_num
  have hlpos : (0 : ℝ) < (pixels.length : ℝ) / 4 := by
    have : (0 : ℝ) < (pixels.length : ℝ) := by exact_mod_cast hpos
    linarith
  have hlposQ : (0 : ℚ) < (pixels.length : ℚ) / 4 := by
    have : (0 : ℚ) < (pixels.length : ℚ) := by exact_mod_cast hpos
    linarith
  have hsum0 : 0 ≤ ((sampleEvery4 pixels).map pixelLuminance).sum := by
    apply List.sum_nonneg
    intro x hx
    obtain ⟨p, _, rfl⟩ := List.mem_map.mp hx
    exact pixelLuminance_nonneg p
  have hsum1 : ((sampleEvery4 pixels).map pixelLuminance).sum ≤ (pixels.length : ℝ) / 4 := by
    have hb : ∀ x ∈ (sampleEvery4 pixels).map pixelLuminance, x ≤ 1 := by
      intro x hx
      obtain ⟨p, hp, rfl⟩ := List.mem_map.mp hx
      have hpx := hbytes p (sampleEvery4_subset pixels p hp)
      exact pixelLuminance_le_one p hpx.1 hpx.2.1 hpx.2.2
    calc ((sampleEvery4 pixels).map pixelLuminance).sum
        ≤ ((sampleEvery4 pixels).map pixelLuminance).length • (1 : ℝ) :=
          List.sum_le_card_nsmul _ 1 hb
      _ = ((sampleEvery4 pixels).length : ℝ) := by
          simp [nsmul_eq_mul]
      _ = (pixels.length : ℝ) / 4 := by
          rw [hlen, hcast]
  have hcount : ((sampleEvery4 pixels).countP isSaturatedRed : ℚ) ≤ (pixels.length : ℚ) / 4 := by
    have h := List.countP_le_length (p := isSaturatedRed) (l := sampleEvery4 pixels)
    rw [hlen] at h
    calc ((sampleEvery4 pixels).countP isSaturatedRed : ℚ)
        ≤ ((pixels.length / 4 : ℕ) : ℚ) := by exact_mod_cast h
      _ = (pixels.length : ℚ) / 4 := hcastQ
  refine ⟨?_, ?_, ?_, ?_⟩
  · exact div_nonneg hsum0 (le_of_lt hlpos)
  · rw [calculateLuminance, div_le_one hlpos]
    exact hsum1
  · exact div_nonneg (by positivity) (le_of_lt hlposQ)
  · rw [calculateRedSaturation, div_le_one hlposQ]
    exact hcount

/-- Counterexample to claim C6 as stated: on a 1×1 frame consisting of one
saturated-red pixel, the divisor `pixelCount / 4 = 1/4` undercounts the one
sampled pixel and the red-saturation result is 4, outside [0, 1]. -/
theorem redSaturationRangeCounterexample :
    calculateRedSaturation [⟨255, 0, 0, 255⟩] = 4 ∧
    ¬ (calculateRedSaturation [⟨255, 0, 0, 255⟩] ≤ 1) := by
  constructor <;>
    norm_num [calculateRedSaturation, sampleEvery4, isSaturatedRed,
      List.countP_cons, List.countP_nil]

/-- A 2×2 all-black frame (4 RGBA pixels). -/
def blackFrame : List Pixel :=
  [⟨0, 0, 0, 255⟩, ⟨0, 0, 0, 255⟩, ⟨0, 0, 0, 255⟩, ⟨0, 0, 0, 255⟩]

/-- Witness for `analyzerRangeAmended` on the concrete 2×2 black frame. -/
theorem analyzerRangeAmendedWitness :
    0 ≤ calculateLuminance blackFrame ∧ calculateLuminance blackFrame ≤ 1 ∧
    0 ≤ calculateRedSaturation blackFrame ∧ calculateRedSaturation blackFrame ≤ 1 :=
  analyzerRangeAmended blackFrame (by decide) (by decide) (by decide)
